import Mathlib

/-!
Verification of the GS1 DataMatrix parser
(`src/server/utils/datamatrix_parser.py`, function `parse_gs1_datamatrix`).

The parser is embedded over `List Char`.  Python string slicing `s[a:b]`
becomes `pySlice s a b`; the two `while` loops of the source become
structurally recursive functions over an explicit gas counter that is
always at least the number of remaining iterations (each iteration of
either loop advances its index by at least one, a fact proved below as
`loopBody_progress` / fuel-insensitivity, so the gas never runs out
before the loop's own exit condition fires).
-/

/-- ASCII group separator, `GROUP_SEPARATOR = '\x1d'` in the source. -/
def GROUP_SEPARATOR : Char := Char.ofNat 0x1d

/-- The GS1 application-identifier table `GS1_AIS` of the source:
`'01' : 14`, `'10' : None`, `'17' : 6`, `'21' : None`
(`none` denotes a variable-length field). -/
def GS1_AIS : List (List Char × Option Nat) :=
  [(['0', '1'], some 14), (['1', '0'], none), (['1', '7'], some 6), (['2', '1'], none)]

/-- Python slicing `s[a:b]` (for `0 ≤ a ≤ b`; both ends clamp to the length). -/
def pySlice (s : List Char) (a b : Nat) : List Char :=
  (s.drop a).take (b - a)

/-- Python's per-character Unicode digit property, as used by `str.isdigit`.
For every code point below `0x100` the characters with the digit property
are exactly the ASCII digits together with the superscripts `'¹'`, `'²'`,
`'³'`; the model is faithful on that range (code points at or above
`0x100` do not occur in any input considered here). -/
def pyCharIsDigit (c : Char) : Bool :=
  c.isDigit || c = '¹' || c = '²' || c = '³'

/-- Python `str.isdigit`: nonempty and every character has the digit
property. -/
def pyStrIsDigit (l : List Char) : Bool :=
  !l.isEmpty && l.all pyCharIsDigit

/-- Numeric value of a list of ASCII digits (most significant first). -/
def digitsVal (l : List Char) : Nat :=
  l.foldl (fun a c => 10 * a + (c.toNat - 48)) 0

/-- Python `int(s)` on the strings it is applied to in the source: those
have already passed `str.isdigit`, and on such a string `int` succeeds
exactly when every character is a decimal digit (Unicode category `Nd`,
which below `0x100` means the ASCII digits); otherwise it raises
`ValueError`.  `none` models the raised exception. -/
def pyInt (l : List Char) : Option Nat :=
  if l ≠ [] ∧ l.all Char.isDigit then some (digitsVal l) else none

/-- Python format `f"{n:0wd}"` for a nonnegative `n`: decimal digits,
zero-padded on the left to width `w`. -/
def pyPad (w n : Nat) : List Char :=
  let d := Nat.toDigits 10 n
  List.replicate (w - d.length) '0' ++ d

/-- The expiration-date formatting of the source's `17` branch:
`year = 2000 + yy if yy < 50 else 1900 + yy` followed by
`f"{year:04d}-{mm:02d}-{dd:02d}"`. -/
def fmtExp (yy mm dd : Nat) : List Char :=
  let year := if yy < 50 then 2000 + yy else 1900 + yy
  pyPad 4 year ++ '-' :: (pyPad 2 mm ++ '-' :: pyPad 2 dd)

/-- The whole `YYMMDD` post-processing applied to a 6-character raw
expiration field (meaningful when the field is six ASCII digits). -/
def expWindow (e : List Char) : List Char :=
  match pyInt (pySlice e 0 2), pyInt (pySlice e 2 4), pyInt (pySlice e 4 6) with
  | some yy, some mm, some dd => fmtExp yy mm dd
  | _, _, _ => []

/-- The `result` dictionary of the source. -/
structure ParseResult where
  gtin : List Char
  serial_number : List Char
  lot_number : List Char
  expiration_date : List Char
  ndc : List Char
deriving DecidableEq, Repr

/-- The initial all-empty `result`. -/
def emptyResult : ParseResult := ⟨[], [], [], [], []⟩

/-- The inner boundary-search loop of the serial branch (source lines
84–118): starting at `j`, scan forward while `j < len - 1` and return the
first position accepted as an expiration-AI boundary, or `len` when none
is found.  `gas` bounds the number of iterations; the wrapper
`findSerialEnd` supplies `s.length - j`, which always suffices since `j`
increases by exactly one per iteration. -/
def findSerialEndAux (s : List Char) : Nat → Nat → Nat
  | 0, _ => s.length
  | gas + 1, j =>
    if j < s.length - 1 then
      if j + 8 ≤ s.length ∧ pySlice s j (j + 2) = ['1', '7'] then
        let potential_exp := pySlice s (j + 2) (j + 8)
        if pyStrIsDigit potential_exp ∧ potential_exp.length = 6 then
          if j + 8 ≥ s.length then j
          else if j + 8 + 2 ≤ s.length ∧ pySlice s (j + 8) (j + 8 + 2) = ['1', '0'] then j
          else
            match pyInt (pySlice potential_exp 0 2), pyInt (pySlice potential_exp 2 4),
                pyInt (pySlice potential_exp 4 6) with
            | some _, some mm, some dd =>
              if 1 ≤ mm ∧ mm ≤ 12 ∧ 1 ≤ dd ∧ dd ≤ 31 then j
              else findSerialEndAux s gas (j + 1)
            | _, _, _ => findSerialEndAux s gas (j + 1)
        else findSerialEndAux s gas (j + 1)
      else findSerialEndAux s gas (j + 1)
    else s.length

/-- `end` computed by the serial branch when the field value starts at
`j`. -/
def findSerialEnd (s : List Char) (j : Nat) : Nat :=
  findSerialEndAux s (s.length - j) j

/-- The conditions under which the inner loop accepts position `j` as the
expiration-AI boundary (the three `break`s of source lines 92–112):
`"17"` at `j` followed by six digit-property characters that are at the
end of the input, or followed by `"10"`, or parse (without raising) to a
plausible month and day. -/
def corroborated17At (s : List Char) (j : Nat) : Bool :=
  if j + 8 ≤ s.length ∧ pySlice s j (j + 2) = ['1', '7'] then
    let potential_exp := pySlice s (j + 2) (j + 8)
    if pyStrIsDigit potential_exp ∧ potential_exp.length = 6 then
      if j + 8 ≥ s.length then true
      else if j + 8 + 2 ≤ s.length ∧ pySlice s (j + 8) (j + 8 + 2) = ['1', '0'] then true
      else
        match pyInt (pySlice potential_exp 0 2), pyInt (pySlice potential_exp 2 4),
            pyInt (pySlice potential_exp 4 6) with
        | some _, some mm, some dd => decide (1 ≤ mm ∧ mm ≤ 12 ∧ 1 ≤ dd ∧ dd ≤ 31)
        | _, _, _ => false
    else false
  else false

/-- Outcome of one iteration of the main `while` loop. -/
inductive LoopOut where
  | cont : Nat → ParseResult → LoopOut
  | halt : ParseResult → LoopOut
  | fault : LoopOut
deriving DecidableEq, Repr

/-- One iteration of the main loop (source lines 52–146), entered with
`i < len - 1`: the `break` statements yield `halt`, reaching the bottom
of an iteration yields `cont` with the new cursor, and an uncaught
`ValueError` from `int()` in the `17` branch yields `fault`. -/
def loopBody (s : List Char) (i : Nat) (r : ParseResult) : LoopOut :=
  if i + 2 > s.length then LoopOut.halt r
  else
    let ai := pySlice s i (i + 2)
    if ai = ['0', '1'] ∧ r.gtin = [] ∧ i + 16 ≤ s.length then
      LoopOut.cont (i + 16) { r with gtin := pySlice s (i + 2) (i + 16) }
    else if ai = ['2', '1'] ∧ r.gtin ≠ [] ∧ r.serial_number = [] then
      let e := findSerialEnd s (i + 2)
      LoopOut.cont e { r with serial_number := pySlice s (i + 2) e }
    else if ai = ['1', '7'] ∧ r.gtin ≠ [] ∧ r.expiration_date = [] ∧ i + 8 ≤ s.length then
      let exp_date := pySlice s (i + 2) (i + 8)
      if pyStrIsDigit exp_date ∧ exp_date.length = 6 then
        match pyInt (pySlice exp_date 0 2), pyInt (pySlice exp_date 2 4),
            pyInt (pySlice exp_date 4 6) with
        | some yy, some mm, some dd =>
          LoopOut.cont (i + 8) { r with expiration_date := fmtExp yy mm dd }
        | _, _, _ => LoopOut.fault
      else LoopOut.cont (i + 8) r
    else if ai = ['1', '0'] ∧ r.gtin ≠ [] ∧ r.lot_number = [] then
      LoopOut.halt { r with lot_number := s.drop (i + 2) }
    else LoopOut.cont (i + 1) r

/-- The main `while i < len(clean_data) - 1` loop.  `gas` bounds the
number of iterations; the top-level call supplies `s.length`, which
always suffices since every iteration strictly increases `i`
(`loopBody_progress` below), so gas `0` is only ever reached with
`i ≥ len - 1`, where the loop would exit anyway — both return the
current result. -/
def scanLoopAux (s : List Char) : Nat → Nat → ParseResult → Except Unit ParseResult
  | 0, _, r => Except.ok r
  | gas + 1, i, r =>
    if i < s.length - 1 then
      match loopBody s i r with
      | LoopOut.cont i' r' => scanLoopAux s gas i' r'
      | LoopOut.halt r' => Except.ok r'
      | LoopOut.fault => Except.error ()
    else Except.ok r

/-- NDC extraction (source lines 149–153): when the GTIN is nonempty and
starts with `"003"`, the NDC is `gtin[3:12]` reformatted as
`first-5-dash-last-4`. -/
def addNdc (r : ParseResult) : ParseResult :=
  match r.gtin with
  | '0' :: '0' :: '3' :: _ =>
    let ndc_raw := pySlice r.gtin 3 12
    { r with ndc := ndc_raw.take 5 ++ '-' :: ndc_raw.drop 5 }
  | _ => r

/-- `parse_gs1_datamatrix`: remove all group separators, run the scan
loop from cursor `0` on the empty result, then derive the NDC.
`Except.error ()` models an uncaught exception escaping the function. -/
def parse_gs1_datamatrix (raw_data : List Char) : Except Unit ParseResult :=
  let clean_data := raw_data.filter (fun c => c ≠ GROUP_SEPARATOR)
  Except.map addNdc (scanLoopAux clean_data clean_data.length 0 emptyResult)

/-- NDC value derived from a GTIN string, for use in specifications. -/
def ndcOf (g : List Char) : List Char :=
  match g with
  | '0' :: '0' :: '3' :: _ => (pySlice g 3 12).take 5 ++ '-' :: (pySlice g 3 12).drop 5
  | _ => []

/-! ### Basic facts about slices, digits and separator removal -/

theorem pySlice_exact (pre mid post s : List Char) (a b : Nat)
    (hs : s = pre ++ (mid ++ post)) (ha : pre.length = a) (hb : b = a + mid.length) :
    pySlice s a b = mid := by
  subst hs; subst ha
  unfold pySlice
  rw [List.drop_left, hb]
  simp [List.take_left]

theorem drop_exact (pre rest s : List Char) (a : Nat)
    (hs : s = pre ++ rest) (ha : pre.length = a) :
    s.drop a = rest := by
  subst hs; subst ha; exact List.drop_left pre rest

theorem pySlice_length (s : List Char) (a b : Nat) (hb : b ≤ s.length) (hab : a ≤ b) :
    (pySlice s a b).length = b - a := by
  unfold pySlice
  rw [List.length_take, List.length_drop]
  omega

theorem pySlice_all (s : List Char) (a b : Nat) (p : Char → Bool) (h : s.all p = true) :
    (pySlice s a b).all p = true := by
  unfold pySlice
  rw [List.all_eq_true] at h ⊢
  intro c hc
  exact h c (List.mem_of_mem_drop (List.mem_of_mem_take hc))

theorem digit_ne_gs (c : Char) (h : c.isDigit = true) : c ≠ GROUP_SEPARATOR := by
  intro hc
  rw [hc] at h
  exact absurd h (by decide)

theorem filter_gs_of_digits (l : List Char) (h : l.all Char.isDigit = true) :
    l.filter (fun c => c ≠ GROUP_SEPARATOR) = l := by
  induction l with
  | nil => rfl
  | cons c t ih =>
    rw [List.all_cons, Bool.and_eq_true] at h
    rw [List.filter_cons]
    rw [if_pos (by simpa using digit_ne_gs c h.1)]
    rw [ih h.2]

theorem pyStrIsDigit_of_digits (l : List Char) (hne : l ≠ []) (h : l.all Char.isDigit = true) :
    pyStrIsDigit l = true := by
  unfold pyStrIsDigit
  rw [Bool.and_eq_true]
  constructor
  · simpa using hne
  · rw [List.all_eq_true] at h ⊢
    intro c hc
    unfold pyCharIsDigit
    simp [h c hc]

theorem pyInt_of_digits (l : List Char) (hne : l ≠ []) (h : l.all Char.isDigit = true) :
    pyInt l = some (digitsVal l) := by
  unfold pyInt
  rw [if_pos ⟨hne, h⟩]

/-! ### The inner boundary-search loop -/

theorem corroborated17At_le (s : List Char) (j : Nat) (h : corroborated17At s j = true) :
    j + 8 ≤ s.length := by
  unfold corroborated17At at h
  by_cases h1 : j + 8 ≤ s.length ∧ pySlice s j (j + 2) = ['1', '7']
  · exact h1.1
  · rw [if_neg h1] at h; exact absurd h (by simp)

theorem findSerialEndAux_succ (s : List Char) (gas j : Nat) (hj : j < s.length - 1) :
    findSerialEndAux s (gas + 1) j =
      if corroborated17At s j then j else findSerialEndAux s gas (j + 1) := by
  show (if j < s.length - 1 then _ else s.length) = _
  rw [if_pos hj]
  unfold corroborated17At
  by_cases h1 : j + 8 ≤ s.length ∧ pySlice s j (j + 2) = ['1', '7']
  · rw [if_pos h1, if_pos h1]
    by_cases h2 : pyStrIsDigit (pySlice s (j + 2) (j + 8)) ∧ (pySlice s (j + 2) (j + 8)).length = 6
    · rw [if_pos h2, if_pos h2]
      by_cases h3 : j + 8 ≥ s.length
      · simp [h3]
      · rw [if_neg h3, if_neg h3]
        by_cases h4 : j + 8 + 2 ≤ s.length ∧ pySlice s (j + 8) (j + 8 + 2) = ['1', '0']
        · simp [h4]
        · rw [if_neg h4, if_neg h4]
          cases hA : pyInt (pySlice (pySlice s (j + 2) (j + 8)) 0 2) with
          | none => simp
          | some yy =>
            cases hB : pyInt (pySlice (pySlice s (j + 2) (j + 8)) 2 4) with
            | none => simp
            | some mm =>
              cases hC : pyInt (pySlice (pySlice s (j + 2) (j + 8)) 4 6) with
              | none => simp
              | some dd =>
                by_cases h5 : 1 ≤ mm ∧ mm ≤ 12 ∧ 1 ≤ dd ∧ dd ≤ 31
                · simp [h5]
                · simp [h5]
    · simp [h2]
  · simp [h1]

theorem findSerialEnd_stop (s : List Char) (j : Nat) (hj : ¬ j < s.length - 1) :
    findSerialEnd s j = s.length := by
  unfold findSerialEnd
  cases hg : s.length - j with
  | zero => rfl
  | succ gas =>
    show (if j < s.length - 1 then _ else s.length) = s.length
    rw [if_neg hj]

theorem findSerialEnd_step (s : List Char) (j : Nat) (hj : j < s.length - 1) :
    findSerialEnd s j = if corroborated17At s j then j else findSerialEnd s (j + 1) := by
  unfold findSerialEnd
  have hg : s.length - j = (s.length - j - 1) + 1 := by omega
  have hg2 : s.length - j - 1 = s.length - (j + 1) := by omega
  rw [hg, findSerialEndAux_succ s _ j hj, hg2]

theorem findSerialEnd_ge (s : List Char) : ∀ n j, s.length - j ≤ n →
    j ≤ findSerialEnd s j ∨ findSerialEnd s j = s.length := by
  intro n
  induction n with
  | zero =>
    intro j hn
    right
    exact findSerialEnd_stop s j (by omega)
  | succ n ih =>
    intro j hn
    by_cases hj : j < s.length - 1
    · rw [findSerialEnd_step s j hj]
      by_cases hc : corroborated17At s j = true
      · simp [hc]
      · rw [if_neg (by simp [hc])]
        rcases ih (j + 1) (by omega) with h | h
        · left; omega
        · right; exact h
    · right; exact findSerialEnd_stop s j hj

theorem findSerialEnd_eq_length (s : List Char) : ∀ n j, s.length - j ≤ n →
    (∀ k, j ≤ k → corroborated17At s k = false) → findSerialEnd s j = s.length := by
  intro n
  induction n with
  | zero =>
    intro j hn _
    exact findSerialEnd_stop s j (by omega)
  | succ n ih =>
    intro j hn hnone
    by_cases hj : j < s.length - 1
    · rw [findSerialEnd_step s j hj, hnone j (Nat.le_refl j)]
      simp only [Bool.false_eq_true, if_false]
      exact ih (j + 1) (by omega) (fun k hk => hnone k (by omega))
    · exact findSerialEnd_stop s j hj

theorem findSerialEnd_eq_first (s : List Char) : ∀ n j m, m - j ≤ n → j ≤ m →
    corroborated17At s m = true → (∀ k, j ≤ k → k < m → corroborated17At s k = false) →
    findSerialEnd s j = m := by
  intro n
  induction n with
  | zero =>
    intro j m hn hjm hm _
    have hjm2 : j = m := by omega
    subst hjm2
    have h8 := corroborated17At_le s j hm
    rw [findSerialEnd_step s j (by omega), hm]
    simp
  | succ n ih =>
    intro j m hn hjm hm hmin
    have h8 := corroborated17At_le s m hm
    by_cases hjm2 : j = m
    · subst hjm2
      rw [findSerialEnd_step s j (by omega), hm]
      simp
    · rw [findSerialEnd_step s j (by omega), hmin j (Nat.le_refl j) (by omega)]
      simp only [Bool.false_eq_true, if_false]
      exact ih (j + 1) m (by omega) (by omega) hm (fun k hk hk2 => hmin k (by omega) hk2)

theorem findSerialEnd_boundary (s : List Char) : ∀ n j, s.length - j ≤ n →
    findSerialEnd s j ≠ s.length → corroborated17At s (findSerialEnd s j) = true := by
  intro n
  induction n with
  | zero =>
    intro j hn hne
    exact absurd (findSerialEnd_stop s j (by omega)) hne
  | succ n ih =>
    intro j hn hne
    by_cases hj : j < s.length - 1
    · rw [findSerialEnd_step s j hj] at hne ⊢
      by_cases hc : corroborated17At s j = true
      · simp [hc]
      · rw [if_neg (by simp [hc])] at hne ⊢
        exact ih (j + 1) (by omega) hne
    · exact absurd (findSerialEnd_stop s j hj) hne

/-! ### One iteration of the main loop -/

theorem loopBody_gtin (s : List Char) (i : Nat) (r : ParseResult)
    (hai : pySlice s i (i + 2) = ['0', '1']) (hg : r.gtin = []) (hlen : i + 16 ≤ s.length) :
    loopBody s i r = LoopOut.cont (i + 16) { r with gtin := pySlice s (i + 2) (i + 16) } := by
  unfold loopBody
  rw [if_neg (by omega : ¬ i + 2 > s.length)]
  simp only [hai]
  rw [if_pos ⟨trivial, hg, hlen⟩]

theorem loopBody_serial (s : List Char) (i : Nat) (r : ParseResult)
    (hai : pySlice s i (i + 2) = ['2', '1']) (hg : r.gtin ≠ []) (hs : r.serial_number = [])
    (hlen : i + 2 ≤ s.length) :
    loopBody s i r = LoopOut.cont (findSerialEnd s (i + 2))
      { r with serial_number := pySlice s (i + 2) (findSerialEnd s (i + 2)) } := by
  unfold loopBody
  rw [if_neg (by omega : ¬ i + 2 > s.length)]
  simp only [hai]
  rw [if_neg (by simp), if_pos ⟨trivial, hg, hs⟩]

theorem loopBody_exp (s : List Char) (i : Nat) (r : ParseResult)
    (hai : pySlice s i (i + 2) = ['1', '7']) (hg : r.gtin ≠ []) (he : r.expiration_date = [])
    (hlen : i + 8 ≤ s.length) (hd : (pySlice s (i + 2) (i + 8)).all Char.isDigit = true) :
    loopBody s i r = LoopOut.cont (i + 8)
      { r with expiration_date := expWindow (pySlice s (i + 2) (i + 8)) } := by
  have hl : (pySlice s (i + 2) (i + 8)).length = 6 := by
    rw [pySlice_length s (i + 2) (i + 8) hlen (by omega)]
    omega
  have hne : pySlice s (i + 2) (i + 8) ≠ [] := by
    intro h0; rw [h0] at hl; exact absurd hl (by simp)
  unfold loopBody
  rw [if_neg (by omega : ¬ i + 2 > s.length)]
  simp only [hai]
  rw [if_neg (by simp), if_neg (by simp), if_pos ⟨trivial, hg, he, hlen⟩,
    if_pos ⟨pyStrIsDigit_of_digits _ hne hd, hl⟩]
  have d1 : (pySlice (pySlice s (i + 2) (i + 8)) 0 2).all Char.isDigit = true :=
    pySlice_all _ _ _ _ hd
  have d2 : (pySlice (pySlice s (i + 2) (i + 8)) 2 4).all Char.isDigit = true :=
    pySlice_all _ _ _ _ hd
  have d3 : (pySlice (pySlice s (i + 2) (i + 8)) 4 6).all Char.isDigit = true :=
    pySlice_all _ _ _ _ hd
  have l1 : (pySlice (pySlice s (i + 2) (i + 8)) 0 2).length = 2 :=
    pySlice_length _ _ _ (by omega) (by omega)
  have l2 : (pySlice (pySlice s (i + 2) (i + 8)) 2 4).length = 2 :=
    pySlice_length _ _ _ (by omega) (by omega)
  have l3 : (pySlice (pySlice s (i + 2) (i + 8)) 4 6).length = 2 :=
    pySlice_length _ _ _ (by omega) (by omega)
  rw [pyInt_of_digits _ (by intro h0; rw [h0] at l1; exact absurd l1 (by simp)) d1,
    pyInt_of_digits _ (by intro h0; rw [h0] at l2; exact absurd l2 (by simp)) d2,
    pyInt_of_digits _ (by intro h0; rw [h0] at l3; exact absurd l3 (by simp)) d3]
  unfold expWindow
  rw [pyInt_of_digits _ (by intro h0; rw [h0] at l1; exact absurd l1 (by simp)) d1,
    pyInt_of_digits _ (by intro h0; rw [h0] at l2; exact absurd l2 (by simp)) d2,
    pyInt_of_digits _ (by intro h0; rw [h0] at l3; exact absurd l3 (by simp)) d3]

theorem loopBody_exp_nondigit (s : List Char) (i : Nat) (r : ParseResult)
    (hai : pySlice s i (i + 2) = ['1', '7']) (hg : r.gtin ≠ []) (he : r.expiration_date = [])
    (hlen : i + 8 ≤ s.length) (hd : pyStrIsDigit (pySlice s (i + 2) (i + 8)) = false) :
    loopBody s i r = LoopOut.cont (i + 8) r := by
  unfold loopBody
  rw [if_neg (by omega : ¬ i + 2 > s.length)]
  simp only [hai]
  rw [if_neg (by simp), if_neg (by simp), if_pos ⟨trivial, hg, he, hlen⟩,
    if_neg (by rw [hd]; simp)]

theorem loopBody_lot (s : List Char) (i : Nat) (r : ParseResult)
    (hai : pySlice s i (i + 2) = ['1', '0']) (hg : r.gtin ≠ []) (hl : r.lot_number = [])
    (hlen : i + 2 ≤ s.length) :
    loopBody s i r = LoopOut.halt { r with lot_number := s.drop (i + 2) } := by
  unfold loopBody
  rw [if_neg (by omega : ¬ i + 2 > s.length)]
  simp only [hai]
  rw [if_neg (by simp), if_neg (by simp), if_neg (by simp), if_pos ⟨trivial, hg, hl⟩]

theorem loopBody_progress (s : List Char) (i : Nat) (r : ParseResult) (i' : Nat) (r' : ParseResult)
    (h : loopBody s i r = LoopOut.cont i' r') : i < i' := by
  unfold loopBody at h
  split at h
  · exact absurd h (by simp)
  · rename_i h0
    simp only [] at h
    split at h
    · rw [LoopOut.cont.injEq] at h
      omega
    · split at h
      · rw [LoopOut.cont.injEq] at h
        rcases findSerialEnd_ge s s.length (i + 2) (by omega) with h2 | h2 <;> omega
      · split at h
        · split at h
          · split at h
            · rw [LoopOut.cont.injEq] at h
              omega
            · exact absurd h (by simp)
          · rw [LoopOut.cont.injEq] at h
            omega
        · split at h
          · exact absurd h (by simp)
          · rw [LoopOut.cont.injEq] at h
            omega

theorem scanLoopAux_zero (s : List Char) (i : Nat) (r : ParseResult) :
    scanLoopAux s 0 i r = Except.ok r := rfl

theorem scanLoopAux_succ (s : List Char) (gas i : Nat) (r : ParseResult) :
    scanLoopAux s (gas + 1) i r =
      if i < s.length - 1 then
        match loopBody s i r with
        | LoopOut.cont i' r' => scanLoopAux s gas i' r'
        | LoopOut.halt r' => Except.ok r'
        | LoopOut.fault => Except.error ()
      else Except.ok r := rfl

theorem scanLoopAux_exit (s : List Char) (g i : Nat) (r : ParseResult)
    (hi : ¬ i < s.length - 1) : scanLoopAux s g i r = Except.ok r := by
  cases g with
  | zero => rfl
  | succ g => rw [scanLoopAux_succ, if_neg hi]

theorem scanLoopAux_fuel (s : List Char) : ∀ g1 g2 i : Nat, ∀ r : ParseResult,
    s.length - 1 - i ≤ g1 → s.length - 1 - i ≤ g2 →
    scanLoopAux s g1 i r = scanLoopAux s g2 i r := by
  intro g1
  induction g1 with
  | zero =>
    intro g2 i r h1 h2
    rw [scanLoopAux_exit s 0 i r (by omega), scanLoopAux_exit s g2 i r (by omega)]
  | succ g1 ih =>
    intro g2 i r h1 h2
    by_cases hi : i < s.length - 1
    · cases g2 with
      | zero => omega
      | succ g2 =>
        rw [scanLoopAux_succ, scanLoopAux_succ, if_pos hi, if_pos hi]
        cases hb : loopBody s i r with
        | cont i2 r2 =>
          have hp := loopBody_progress s i r i2 r2 hb
          exact ih g2 i2 r2 (by omega) (by omega)
        | halt r2 => rfl
        | fault => rfl
    · rw [scanLoopAux_exit s _ i r hi, scanLoopAux_exit s _ i r hi]

theorem scanLoopAux_cont (s : List Char) (g i : Nat) (r : ParseResult) (i' : Nat)
    (r' : ParseResult) (hg : s.length - 1 - i ≤ g) (hi : i < s.length - 1)
    (hb : loopBody s i r = LoopOut.cont i' r') :
    scanLoopAux s g i r = scanLoopAux s g i' r' := by
  cases g with
  | zero => omega
  | succ g =>
    rw [scanLoopAux_succ, if_pos hi, hb]
    show scanLoopAux s g i' r' = scanLoopAux s (g + 1) i' r'
    have hp := loopBody_progress s i r i' r' hb
    exact scanLoopAux_fuel s g (g + 1) i' r' (by omega) (by omega)

theorem scanLoopAux_halt (s : List Char) (g i : Nat) (r : ParseResult) (r' : ParseResult)
    (hg : 1 ≤ g) (hi : i < s.length - 1)
    (hb : loopBody s i r = LoopOut.halt r') :
    scanLoopAux s g i r = Except.ok r' := by
  cases g with
  | zero => omega
  | succ g =>
    rw [scanLoopAux_succ, if_pos hi, hb]

theorem loopBody_preserve (s : List Char) (i : Nat) (r : ParseResult) (r' : ParseResult)
    (h : (∃ i', loopBody s i r = LoopOut.cont i' r') ∨ loopBody s i r = LoopOut.halt r') :
    (r.gtin ≠ [] → r'.gtin = r.gtin) ∧
    (r.serial_number ≠ [] → r'.serial_number = r.serial_number) ∧
    (r.lot_number ≠ [] → r'.lot_number = r.lot_number) ∧
    (r.expiration_date ≠ [] → r'.expiration_date = r.expiration_date) ∧
    r'.ndc = r.ndc := by
  rcases h with ⟨i', h⟩ | h <;>
    (unfold loopBody at h; simp only [] at h; split at h) <;>
    (try split at h) <;> (try split at h) <;> (try split at h) <;>
    (try split at h) <;> (try split at h) <;>
    first
      | (rw [LoopOut.cont.injEq] at h; obtain ⟨h1, h2⟩ := h; subst h2;
         refine ⟨?_, ?_, ?_, ?_, rfl⟩ <;> intro hne <;> simp_all)
      | (rw [LoopOut.halt.injEq] at h; subst h;
         refine ⟨?_, ?_, ?_, ?_, rfl⟩ <;> intro hne <;> simp_all)
      | simp_all

/-- Invariant maintained by the scan loop from the initial empty result:
the NDC is still empty (it is only filled in after the loop), the GTIN is
empty or exactly 14 characters (the `01` branch always stores a
14-character pySlice), and while the GTIN is empty no other field has been
stored (every other branch requires a nonempty GTIN). -/
def ScanInv (r : ParseResult) : Prop :=
  r.ndc = [] ∧ (r.gtin = [] ∨ r.gtin.length = 14) ∧
  (r.gtin = [] → r.serial_number = [] ∧ r.lot_number = [] ∧ r.expiration_date = [])

theorem loopBody_inv (s : List Char) (i : Nat) (r : ParseResult) (r' : ParseResult)
    (hInv : ScanInv r)
    (h : (∃ i', loopBody s i r = LoopOut.cont i' r') ∨ loopBody s i r = LoopOut.halt r') :
    ScanInv r' := by
  rcases h with ⟨i', h⟩ | h <;>
    (unfold loopBody at h; simp only [] at h; split at h) <;>
    (try split at h) <;> (try split at h) <;> (try split at h) <;>
    (try split at h) <;> (try split at h) <;>
    first
      | (rw [LoopOut.cont.injEq] at h; obtain ⟨h1, h2⟩ := h; subst h2; simp_all [ScanInv])
      | (rw [LoopOut.halt.injEq] at h; subst h; simp_all [ScanInv])
      | simp_all
  all_goals
    rename_i hc
    right
    rw [pySlice_length s (i + 2) i' hc.2.2 (by omega)]
    omega

theorem scanLoopAux_preserve (s : List Char) : ∀ g i : Nat, ∀ r r' : ParseResult,
    scanLoopAux s g i r = Except.ok r' →
    (r.gtin ≠ [] → r'.gtin = r.gtin) ∧
    (r.serial_number ≠ [] → r'.serial_number = r.serial_number) ∧
    (r.lot_number ≠ [] → r'.lot_number = r.lot_number) ∧
    (r.expiration_date ≠ [] → r'.expiration_date = r.expiration_date) ∧
    r'.ndc = r.ndc := by
  intro g
  induction g with
  | zero =>
    intro i r r' h
    rw [scanLoopAux_zero, Except.ok.injEq] at h
    subst h
    exact ⟨fun _ => rfl, fun _ => rfl, fun _ => rfl, fun _ => rfl, rfl⟩
  | succ g ih =>
    intro i r r' h
    rw [scanLoopAux_succ] at h
    by_cases hi : i < s.length - 1
    · rw [if_pos hi] at h
      cases hb : loopBody s i r with
      | cont i2 r2 =>
        rw [hb] at h
        have p1 := loopBody_preserve s i r r2 (Or.inl ⟨i2, hb⟩)
        have p2 := ih i2 r2 r' h
        refine ⟨?_, ?_, ?_, ?_, ?_⟩
        · intro hne
          have e1 := p1.1 hne
          have e2 := p2.1 (by rw [e1]; exact hne)
          rw [e2, e1]
        · intro hne
          have e1 := p1.2.1 hne
          have e2 := p2.2.1 (by rw [e1]; exact hne)
          rw [e2, e1]
        · intro hne
          have e1 := p1.2.2.1 hne
          have e2 := p2.2.2.1 (by rw [e1]; exact hne)
          rw [e2, e1]
        · intro hne
          have e1 := p1.2.2.2.1 hne
          have e2 := p2.2.2.2.1 (by rw [e1]; exact hne)
          rw [e2, e1]
        · rw [p2.2.2.2.2, p1.2.2.2.2]
      | halt r2 =>
        rw [hb] at h
        rw [Except.ok.injEq] at h
        subst h
        exact loopBody_preserve s i r r2 (Or.inr hb)
      | fault =>
        rw [hb] at h
        exact absurd h (by simp)
    · rw [if_neg hi, Except.ok.injEq] at h
      subst h
      exact ⟨fun _ => rfl, fun _ => rfl, fun _ => rfl, fun _ => rfl, rfl⟩

theorem scanLoopAux_inv (s : List Char) : ∀ g i : Nat, ∀ r r' : ParseResult,
    ScanInv r → scanLoopAux s g i r = Except.ok r' → ScanInv r' := by
  intro g
  induction g with
  | zero =>
    intro i r r' hInv h
    rw [scanLoopAux_zero, Except.ok.injEq] at h
    subst h
    exact hInv
  | succ g ih =>
    intro i r r' hInv h
    rw [scanLoopAux_succ] at h
    by_cases hi : i < s.length - 1
    · rw [if_pos hi] at h
      cases hb : loopBody s i r with
      | cont i2 r2 =>
        rw [hb] at h
        exact ih i2 r2 r' (loopBody_inv s i r r2 hInv (Or.inl ⟨i2, hb⟩)) h
      | halt r2 =>
        rw [hb, Except.ok.injEq] at h
        subst h
        exact loopBody_inv s i r r2 hInv (Or.inr hb)
      | fault =>
        rw [hb] at h
        exact absurd h (by simp)
    · rw [if_neg hi, Except.ok.injEq] at h
      subst h
      exact hInv

theorem ScanInv_empty : ScanInv emptyResult :=
  ⟨rfl, Or.inl rfl, fun _ => ⟨rfl, rfl, rfl⟩⟩

theorem addNdc_gtin (r : ParseResult) : (addNdc r).gtin = r.gtin := by
  unfold addNdc
  split <;> rfl

theorem addNdc_serial (r : ParseResult) : (addNdc r).serial_number = r.serial_number := by
  unfold addNdc
  split <;> rfl

theorem addNdc_lot (r : ParseResult) : (addNdc r).lot_number = r.lot_number := by
  unfold addNdc
  split <;> rfl

theorem addNdc_exp (r : ParseResult) : (addNdc r).expiration_date = r.expiration_date := by
  unfold addNdc
  split <;> rfl

theorem addNdc_ndc (r : ParseResult) (h : r.ndc = []) : (addNdc r).ndc = ndcOf r.gtin := by
  unfold addNdc ndcOf
  split
  · rfl
  · exact h

theorem addNdc_of_ndcOf (r : ParseResult) (h : r.ndc = []) :
    addNdc r = { r with ndc := ndcOf r.gtin } := by
  have h1 := addNdc_gtin r
  have h2 := addNdc_serial r
  have h3 := addNdc_lot r
  have h4 := addNdc_exp r
  have h5 := addNdc_ndc r h
  cases hr : addNdc r
  rw [hr] at h1 h2 h3 h4 h5
  simp only [ParseResult.mk.injEq]
  exact ⟨h1, h2, h3, h4, h5⟩

theorem ndcOf_ne_nil_iff (g : List Char) :
    ndcOf g ≠ [] ↔ ∃ t, g = '0' :: '0' :: '3' :: t := by
  unfold ndcOf
  split
  · rename_i x tail
    constructor
    · intro _
      exact ⟨tail, rfl⟩
    · intro _
      simp
  · rename_i hne
    constructor
    · intro hx
      exact absurd rfl hx
    · rintro ⟨t, ht⟩
      exact (hne t ht).elim

theorem parse_ok (raw : List Char) (r : ParseResult)
    (h : parse_gs1_datamatrix raw = Except.ok r) :
    ∃ r0 : ParseResult,
      scanLoopAux (raw.filter (fun c => c ≠ GROUP_SEPARATOR))
        (raw.filter (fun c => c ≠ GROUP_SEPARATOR)).length 0 emptyResult = Except.ok r0 ∧
      r = addNdc r0 := by
  unfold parse_gs1_datamatrix at h
  simp only [] at h
  cases hx : scanLoopAux (raw.filter (fun c => c ≠ GROUP_SEPARATOR))
      (raw.filter (fun c => c ≠ GROUP_SEPARATOR)).length 0 emptyResult with
  | ok r0 =>
    rw [hx] at h
    simp only [Except.map, Except.ok.injEq] at h
    exact ⟨r0, rfl, h.symm⟩
  | error e =>
    rw [hx] at h
    simp [Except.map] at h

theorem corr_slice17 (s : List Char) (j : Nat) (h : corroborated17At s j = true) :
    pySlice s j (j + 2) = ['1', '7'] := by
  unfold corroborated17At at h
  by_cases h1 : j + 8 ≤ s.length ∧ pySlice s j (j + 2) = ['1', '7']
  · exact h1.2
  · rw [if_neg h1] at h
    exact absurd h (by simp)

/-! ### Claim theorems -/

/-- C7: First-match-wins invariant.  Over any run of the scan loop, a
result field already populated with a nonempty value is never
overwritten: the final result agrees with the starting result on every
field that was already nonempty (and the `ndc` field is never touched by
the scan at all, so it is preserved unconditionally). -/
theorem spec_C7 (s : List Char) (g i : Nat) (r r' : ParseResult)
    (h : scanLoopAux s g i r = Except.ok r') :
    (r.gtin ≠ [] → r'.gtin = r.gtin) ∧
    (r.serial_number ≠ [] → r'.serial_number = r.serial_number) ∧
    (r.lot_number ≠ [] → r'.lot_number = r.lot_number) ∧
    (r.expiration_date ≠ [] → r'.expiration_date = r.expiration_date) ∧
    r'.ndc = r.ndc :=
  scanLoopAux_preserve s g i r r' h

theorem spec_C7_witness :
    let r : ParseResult := ⟨['9'], ['8'], ['7'], ['6'], ['5']⟩
    (r.gtin ≠ [] → r.gtin = r.gtin) ∧
    (r.serial_number ≠ [] → r.serial_number = r.serial_number) ∧
    (r.lot_number ≠ [] → r.lot_number = r.lot_number) ∧
    (r.expiration_date ≠ [] → r.expiration_date = r.expiration_date) ∧
    r.ndc = r.ndc :=
  spec_C7 "0100301439570103".toList 15 0 ⟨['9'], ['8'], ['7'], ['6'], ['5']⟩
    ⟨['9'], ['8'], ['7'], ['6'], ['5']⟩ (by rfl)

/-- C8: Termination via cursor progress.  First conjunct: every loop
iteration that continues strictly advances the cursor (a recognized field
is fully consumed, or the cursor moves one character forward).  Second
conjunct: the scan's value is independent of the gas bound as soon as the
bound covers the remaining distance to the end of the input — i.e. the
loop reaches its exit within that many iterations, so the scan
terminates. -/
theorem spec_C8 :
    (∀ (s : List Char) (i : Nat) (r : ParseResult) (i' : Nat) (r' : ParseResult),
      loopBody s i r = LoopOut.cont i' r' → i < i') ∧
    (∀ (s : List Char) (g1 g2 i : Nat) (r : ParseResult),
      s.length - 1 - i ≤ g1 → s.length - 1 - i ≤ g2 →
      scanLoopAux s g1 i r = scanLoopAux s g2 i r) :=
  ⟨loopBody_progress, scanLoopAux_fuel⟩

theorem spec_C8_witness :
    (0 : Nat) < 16 ∧
    scanLoopAux "0100301439570103".toList 15 0 emptyResult =
      scanLoopAux "0100301439570103".toList 99 0 emptyResult :=
  ⟨spec_C8.1 "0100301439570103".toList 0 emptyResult 16
      ⟨"00301439570103".toList, [], [], [], []⟩ (by decide),
    spec_C8.2 "0100301439570103".toList 15 99 0 emptyResult (by decide) (by decide)⟩

/-- C9: The parse is not total.  On the input
`01` + 14 zeros + `17` + six `'²'` characters, the six characters
following AI `17` satisfy Python's `str.isdigit` (superscript two has the
Unicode digit property), so the guard passes, and `int()` then raises an
uncaught `ValueError` (superscript two is not a decimal digit), which
escapes `parse_gs1_datamatrix`.  The model returns `Except.error ()`
exactly on that uncaught-exception path. -/
theorem spec_C9 :
    parse_gs1_datamatrix "010000000000000017²²²²²²".toList = Except.error () := by
  rfl

/-- C10: Implicit GTIN gating.  Whenever the parse returns normally with
an empty `gtin`, every other field of the result is empty as well: the
serial, expiration and lot branches all require a nonempty stored GTIN,
and NDC derivation requires a nonempty GTIN. -/
theorem spec_C10 (raw : List Char) (r : ParseResult)
    (h : parse_gs1_datamatrix raw = Except.ok r) (hg : r.gtin = []) :
    r.serial_number = [] ∧ r.lot_number = [] ∧ r.expiration_date = [] ∧ r.ndc = [] := by
  obtain ⟨r0, hscan, hr⟩ := parse_ok raw r h
  have hinv := scanLoopAux_inv _ _ _ _ _ ScanInv_empty hscan
  subst hr
  rw [addNdc_gtin] at hg
  have h3 := hinv.2.2 hg
  refine ⟨?_, ?_, ?_, ?_⟩
  · rw [addNdc_serial]
    exact h3.1
  · rw [addNdc_lot]
    exact h3.2.1
  · rw [addNdc_exp]
    exact h3.2.2
  · rw [addNdc_ndc r0 hinv.1, hg]
    rfl

theorem spec_C10_witness :
    emptyResult.serial_number = [] ∧ emptyResult.lot_number = [] ∧
    emptyResult.expiration_date = [] ∧ emptyResult.ndc = [] :=
  spec_C10 "21999".toList emptyResult (by rfl) rfl

/-- C2: NDC derivation.  The general rule of the claim holds: for every
normally-returned result, `ndc` is nonempty exactly when `gtin` is
nonempty and begins with `003`, and `ndc` is always the characters at
GTIN offsets 3–11 (`gtin[3:12]`) reformatted as first-5-dash-last-4
(`ndcOf`).  However, the claim's concrete expectation fails: for GTIN
`00301439570103` the offsets 3–11 give `014395701`, so the code produces
`01439-5701`, not the claimed (and source-comment-documented)
`14395-7010`, which would require offsets 4–12. -/
theorem spec_C2 :
    (∀ (raw : List Char) (r : ParseResult), parse_gs1_datamatrix raw = Except.ok r →
      ((r.ndc ≠ [] ↔ ∃ t, r.gtin = '0' :: '0' :: '3' :: t) ∧ r.ndc = ndcOf r.gtin)) ∧
    parse_gs1_datamatrix "0100301439570103".toList =
      Except.ok ⟨"00301439570103".toList, [], [], [], "01439-5701".toList⟩ ∧
    parse_gs1_datamatrix "0110301439570103".toList =
      Except.ok ⟨"10301439570103".toList, [], [], [], []⟩ ∧
    ("01439-5701".toList : List Char) ≠ "14395-7010".toList := by
  refine ⟨?_, by rfl, by rfl, by decide⟩
  intro raw r h
  obtain ⟨r0, hscan, hr⟩ := parse_ok raw r h
  have hinv := scanLoopAux_inv _ _ _ _ _ ScanInv_empty hscan
  subst hr
  rw [addNdc_gtin, addNdc_ndc r0 hinv.1]
  exact ⟨ndcOf_ne_nil_iff r0.gtin, rfl⟩

theorem spec_C2_witness :
    (("01439-5701".toList : List Char) ≠ [] ↔
      ∃ t, ("00301439570103".toList : List Char) = '0' :: '0' :: '3' :: t) ∧
    ("01439-5701".toList : List Char) = ndcOf "00301439570103".toList :=
  spec_C2.1 "0100301439570103".toList
    ⟨"00301439570103".toList, [], [], [], "01439-5701".toList⟩ (by rfl)

/-- C5: Expiration-date windowing.  When the scan reaches AI `17` with a
stored GTIN, no stored expiration yet, and six ASCII-digit characters
following, it stores the raw `YYMMDD` field converted by `expWindow`:
years 00–49 map to 2000–2049, years 50–99 to 1950–1999, formatted
`YYYY-MM-DD` with no calendar validation (`995505` gives `1999-55-05`).
When the six characters fail Python's `isdigit`, the iteration leaves the
expiration empty and moves on. -/
theorem spec_C5 :
    (∀ (s : List Char) (i : Nat) (r : ParseResult),
      pySlice s i (i + 2) = ['1', '7'] → r.gtin ≠ [] → r.expiration_date = [] →
      i + 8 ≤ s.length → (pySlice s (i + 2) (i + 8)).all Char.isDigit = true →
      loopBody s i r = LoopOut.cont (i + 8)
        { r with expiration_date := expWindow (pySlice s (i + 2) (i + 8)) }) ∧
    (∀ (s : List Char) (i : Nat) (r : ParseResult),
      pySlice s i (i + 2) = ['1', '7'] → r.gtin ≠ [] → r.expiration_date = [] →
      i + 8 ≤ s.length → pyStrIsDigit (pySlice s (i + 2) (i + 8)) = false →
      loopBody s i r = LoopOut.cont (i + 8) r) ∧
    expWindow "260930".toList = "2026-09-30".toList ∧
    expWindow "995505".toList = "1999-55-05".toList ∧
    expWindow "490101".toList = "2049-01-01".toList ∧
    expWindow "500101".toList = "1950-01-01".toList ∧
    parse_gs1_datamatrix "010030143957010317260930".toList =
      Except.ok ⟨"00301439570103".toList, [], [], "2026-09-30".toList, "01439-5701".toList⟩ ∧
    parse_gs1_datamatrix "010030143957010317995505".toList =
      Except.ok ⟨"00301439570103".toList, [], [], "1999-55-05".toList, "01439-5701".toList⟩ :=
  ⟨loopBody_exp, loopBody_exp_nondigit, by rfl, by rfl, by rfl, by rfl, by rfl, by rfl⟩

theorem spec_C5_witness :
    loopBody "010030143957010317260930".toList 16
        ⟨"00301439570103".toList, [], [], [], []⟩ =
      LoopOut.cont 24
        ⟨"00301439570103".toList, [], [],
          expWindow (pySlice "010030143957010317260930".toList 18 24), []⟩ :=
  spec_C5.1 "010030143957010317260930".toList 16 ⟨"00301439570103".toList, [], [], [], []⟩
    (by rfl) (by decide) rfl (by decide) (by rfl)

theorem pyInt_sub (e : List Char) (a b : Nat) (hd : e.all Char.isDigit = true)
    (hb : b ≤ e.length) (hab : a < b) :
    pyInt (pySlice e a b) = some (digitsVal (pySlice e a b)) := by
  have hl : (pySlice e a b).length = b - a := pySlice_length e a b hb (by omega)
  apply pyInt_of_digits
  · intro h0
    rw [h0] at hl
    simp at hl
    omega
  · exact pySlice_all e a b _ hd

theorem corr_false_of_implausible (s : List Char) (j : Nat)
    (h17 : pySlice s j (j + 2) = ['1', '7'])
    (hd : (pySlice s (j + 2) (j + 8)).all Char.isDigit = true)
    (hlen : j + 8 < s.length)
    (h10 : pySlice s (j + 8) (j + 8 + 2) ≠ ['1', '0'])
    (him : ¬ (1 ≤ digitsVal (pySlice (pySlice s (j + 2) (j + 8)) 2 4) ∧
        digitsVal (pySlice (pySlice s (j + 2) (j + 8)) 2 4) ≤ 12 ∧
        1 ≤ digitsVal (pySlice (pySlice s (j + 2) (j + 8)) 4 6) ∧
        digitsVal (pySlice (pySlice s (j + 2) (j + 8)) 4 6) ≤ 31)) :
    corroborated17At s j = false := by
  have hl6 : (pySlice s (j + 2) (j + 8)).length = 6 := by
    rw [pySlice_length s (j + 2) (j + 8) (by omega) (by omega)]
    omega
  have hne6 : pySlice s (j + 2) (j + 8) ≠ [] := by
    intro h0
    rw [h0] at hl6
    exact absurd hl6 (by simp)
  unfold corroborated17At
  rw [if_pos ⟨by omega, h17⟩]
  simp only []
  rw [if_pos ⟨pyStrIsDigit_of_digits _ hne6 hd, hl6⟩]
  rw [if_neg (by omega : ¬ j + 8 ≥ s.length)]
  rw [if_neg (fun hx => h10 hx.2)]
  rw [pyInt_sub _ 0 2 hd (by rw [hl6]; omega) (by omega),
    pyInt_sub _ 2 4 hd (by rw [hl6]; omega) (by omega),
    pyInt_sub _ 4 6 hd (by rw [hl6]) (by omega)]
  exact decide_eq_false him

/-- C3 (amended): an occurrence of `"17"` followed by six digits that do
not form a plausible month/day is skipped by the boundary search —
provided the six digits are not at the end of the input and are not
followed by the digits `"10"`.  (As the counterexample shows, the source
accepts a `"17"` boundary whose six digits are followed by `"10"` or end
the input without any plausibility check, so the claim's unconditional
form is false.) -/
theorem spec_C3 (s : List Char) (j : Nat)
    (h17 : pySlice s j (j + 2) = ['1', '7'])
    (hd : (pySlice s (j + 2) (j + 8)).all Char.isDigit = true)
    (hlen : j + 8 < s.length)
    (h10 : pySlice s (j + 8) (j + 8 + 2) ≠ ['1', '0'])
    (him : ¬ (1 ≤ digitsVal (pySlice (pySlice s (j + 2) (j + 8)) 2 4) ∧
        digitsVal (pySlice (pySlice s (j + 2) (j + 8)) 2 4) ≤ 12 ∧
        1 ≤ digitsVal (pySlice (pySlice s (j + 2) (j + 8)) 4 6) ∧
        digitsVal (pySlice (pySlice s (j + 2) (j + 8)) 4 6) ≤ 31)) :
    findSerialEnd s j = findSerialEnd s (j + 1) := by
  rw [findSerialEnd_step s j (by omega),
    corr_false_of_implausible s j h17 hd hlen h10 him]
  simp

/-- C3 counterexample: the canonical input whose serial field value is
`1713145610333` — it contains `"17"` followed by `131456` (month `14`,
day `56`, implausible) and then `"10"` — is split at that `"17"`: the
returned serial is empty (not the claimed serial value), the implausible
digits are consumed as the expiration (`2013-14-56`), and the rest is
taken as the lot. -/
theorem spec_C3_counterexample :
    parse_gs1_datamatrix ("0100301439570103".toList ++ "21".toList ++
        "1713145610333".toList ++ [GROUP_SEPARATOR] ++ "17260930102405224".toList) =
      Except.ok ⟨"00301439570103".toList, [], "33317260930102405224".toList,
        "2013-14-56".toList, "01439-5701".toList⟩ ∧
    ([] : List Char) ≠ "1713145610333".toList :=
  ⟨by rfl, by decide⟩

theorem spec_C3_witness :
    findSerialEnd "1713145699".toList 0 = findSerialEnd "1713145699".toList 1 :=
  spec_C3 "1713145699".toList 0 (by rfl) (by rfl) (by decide) (by decide) (by decide)

theorem pySlice_to_end (pre rest s : List Char) (a : Nat)
    (hs : s = pre ++ rest) (ha : pre.length = a) :
    pySlice s a s.length = rest := by
  unfold pySlice
  rw [drop_exact pre rest s a hs ha]
  have hlen : s.length - a = rest.length := by
    subst hs
    subst ha
    simp
  rw [hlen, List.take_length]

/-- C4 (amended): the digits `"10"` alone are never accepted as a serial
boundary.  For an input in which a variable-length serial field is
followed by `"10"` and a lot, with no group separator and no corroborated
`"17"` boundary anywhere at or after the field start, the serial field
extends to the end of the input — the returned serial is
`serial ++ "10" ++ lot` and the lot (and expiration) stay empty.  (The
claim said the serial would stop at the first `"10"`; the counterexample
shows it does not.) -/
theorem spec_C4 (g serial lot : List Char)
    (hg14 : g.length = 14) (hgd : g.all Char.isDigit = true)
    (hsd : serial.all Char.isDigit = true) (hld : lot.all Char.isDigit = true)
    (hnone : ∀ k, k < (['0', '1'] ++ g ++ ['2', '1'] ++ serial ++ ['1', '0'] ++ lot).length →
      18 ≤ k →
      corroborated17At (['0', '1'] ++ g ++ ['2', '1'] ++ serial ++ ['1', '0'] ++ lot) k = false) :
    parse_gs1_datamatrix (['0', '1'] ++ g ++ ['2', '1'] ++ serial ++ ['1', '0'] ++ lot) =
      Except.ok ⟨g, serial ++ ['1', '0'] ++ lot, [], [], ndcOf g⟩ := by
  set s := ['0', '1'] ++ g ++ ['2', '1'] ++ serial ++ ['1', '0'] ++ lot with hs
  have hL : s.length = 20 + (serial.length + lot.length) := by
    rw [hs]
    simp [List.length_append, hg14]
    omega
  have hgne : g ≠ [] := by
    intro h0
    rw [h0] at hg14
    exact absurd hg14 (by simp)
  have hall : s.all Char.isDigit = true := by
    rw [hs]
    simp [List.all_append, hgd, hsd, hld]
  have hclean : s.filter (fun c => c ≠ GROUP_SEPARATOR) = s := filter_gs_of_digits s hall
  have hai0 : pySlice s 0 (0 + 2) = ['0', '1'] :=
    pySlice_exact [] ['0', '1'] (g ++ ['2', '1'] ++ serial ++ ['1', '0'] ++ lot) s 0 (0 + 2)
      (by rw [hs]; simp [List.append_assoc]) rfl rfl
  have hgt : pySlice s (0 + 2) (0 + 16) = g :=
    pySlice_exact ['0', '1'] g (['2', '1'] ++ serial ++ ['1', '0'] ++ lot) s (0 + 2) (0 + 16)
      (by rw [hs]; simp [List.append_assoc]) rfl (by omega)
  have hai16 : pySlice s 16 (16 + 2) = ['2', '1'] :=
    pySlice_exact (['0', '1'] ++ g) ['2', '1'] (serial ++ ['1', '0'] ++ lot) s 16 (16 + 2)
      (by rw [hs]; simp [List.append_assoc]) (by simp [hg14]) (by simp)
  have hnone2 : ∀ k, 16 + 2 ≤ k → corroborated17At s k = false := by
    intro k hk
    by_cases hkL : k < s.length
    · exact hnone k hkL (by omega)
    · cases hc : corroborated17At s k with
      | false => rfl
      | true =>
        have := corroborated17At_le s k hc
        omega
  have hend : findSerialEnd s (16 + 2) = s.length :=
    findSerialEnd_eq_length s s.length (16 + 2) (by omega) hnone2
  have hserial : pySlice s (16 + 2) s.length = serial ++ ['1', '0'] ++ lot :=
    pySlice_to_end (['0', '1'] ++ g ++ ['2', '1']) (serial ++ ['1', '0'] ++ lot) s (16 + 2)
      (by rw [hs]; simp [List.append_assoc]) (by simp [hg14])
  have hstep1 : loopBody s 0 emptyResult =
      LoopOut.cont (0 + 16) { emptyResult with gtin := g } := by
    have h1 := loopBody_gtin s 0 emptyResult hai0 rfl (by omega)
    rw [hgt] at h1
    exact h1
  have hstep2 : loopBody s 16 { emptyResult with gtin := g } =
      LoopOut.cont s.length
        { emptyResult with gtin := g, serial_number := serial ++ ['1', '0'] ++ lot } := by
    have h2 := loopBody_serial s 16 { emptyResult with gtin := g } hai16 hgne rfl (by omega)
    rw [hend, hserial] at h2
    exact h2
  have hparse : parse_gs1_datamatrix s =
      Except.map addNdc (scanLoopAux s s.length 0 emptyResult) := by
    unfold parse_gs1_datamatrix
    simp only []
    rw [hclean]
  rw [hparse,
    scanLoopAux_cont s s.length 0 emptyResult (0 + 16) _ (by omega) (by omega) hstep1,
    scanLoopAux_cont s s.length (0 + 16) _ s.length _ (by omega) (by omega) hstep2,
    scanLoopAux_exit s s.length s.length _ (by omega)]
  simp only [Except.map]
  rw [addNdc_of_ndcOf _ rfl]
  rfl

theorem spec_C4_witness :
    parse_gs1_datamatrix
        (['0', '1'] ++ "00301439570103".toList ++ ['2', '1'] ++ "555".toList ++
          ['1', '0'] ++ "777".toList) =
      Except.ok ⟨"00301439570103".toList, "55510777".toList, [], [],
        "01439-5701".toList⟩ :=
  spec_C4 "00301439570103".toList "555".toList "777".toList (by rfl) (by rfl) (by rfl)
    (by rfl) (by decide)

/-- C4 counterexample: for the input `01<gtin>21<serial=555>10<lot=777>`
the claim demands `serial_number = "555"` and `lot_number = "777"`; the
code instead returns `serial_number = "55510777"` and an empty lot — the
`"10"` is not taken as a boundary. -/
theorem spec_C4_counterexample :
    parse_gs1_datamatrix ("0100301439570103" ++ "21" ++ "555" ++ "10" ++ "777").toList =
      Except.ok ⟨"00301439570103".toList, "55510777".toList, [], [], "01439-5701".toList⟩ ∧
    ("55510777".toList : List Char) ≠ "555".toList :=
  ⟨by rfl, by decide⟩

theorem filter_gs_middle (A B : List Char) (hA : A.all Char.isDigit = true)
    (hB : B.all Char.isDigit = true) :
    (A ++ [GROUP_SEPARATOR] ++ B).filter (fun c => c ≠ GROUP_SEPARATOR) = A ++ B := by
  rw [List.filter_append, List.filter_append, filter_gs_of_digits _ hA, filter_gs_of_digits _ hB]
  simp

/-- C1 (amended): canonical-form recovery.  For inputs of the canonical
form `01<14 digits>21<serial><GS>17<6 digits>10<lot>` with digit serial
and lot and a plausible expiration date, the parser recovers all four
fields exactly (and the serial contains no separator characters, being
exactly the all-digit serial segment) — provided no position inside the
serial segment passes the scanner's corroborated-`17` boundary test on
the separator-stripped input.  (The counterexample shows the claim's
unconditional form fails when the serial itself contains such an
occurrence.) -/
theorem spec_C1 (g serial exp lot : List Char)
    (hg14 : g.length = 14) (hgd : g.all Char.isDigit = true)
    (_hsne : serial ≠ []) (hsd : serial.all Char.isDigit = true)
    (hE6 : exp.length = 6) (hed : exp.all Char.isDigit = true)
    (_hplaus : 1 ≤ digitsVal (pySlice exp 2 4) ∧ digitsVal (pySlice exp 2 4) ≤ 12 ∧
      1 ≤ digitsVal (pySlice exp 4 6) ∧ digitsVal (pySlice exp 4 6) ≤ 31)
    (_hlne : lot ≠ []) (hld : lot.all Char.isDigit = true)
    (hben : ∀ k, k < 18 + serial.length → 18 ≤ k →
      corroborated17At
        (['0', '1'] ++ g ++ ['2', '1'] ++ serial ++ ['1', '7'] ++ exp ++ ['1', '0'] ++ lot)
        k = false) :
    parse_gs1_datamatrix
        (['0', '1'] ++ g ++ ['2', '1'] ++ serial ++ [GROUP_SEPARATOR] ++
          ['1', '7'] ++ exp ++ ['1', '0'] ++ lot) =
      Except.ok ⟨g, serial, lot, expWindow exp, ndcOf g⟩ := by
  set s := ['0', '1'] ++ g ++ ['2', '1'] ++ serial ++ ['1', '7'] ++ exp ++ ['1', '0'] ++ lot
    with hs
  set p := 18 + serial.length with hp
  have hL : s.length = 28 + (serial.length + lot.length) := by
    rw [hs]
    simp [List.length_append, hg14, hE6]
    try omega
  have hgne : g ≠ [] := by
    intro h0
    rw [h0] at hg14
    exact absurd hg14 (by simp)
  have hA : (['0', '1'] ++ g ++ ['2', '1'] ++ serial).all Char.isDigit = true := by
    simp [List.all_append, hgd, hsd]
  have hB : (['1', '7'] ++ exp ++ ['1', '0'] ++ lot).all Char.isDigit = true := by
    simp [List.all_append, hed, hld]
  have hclean :
      (['0', '1'] ++ g ++ ['2', '1'] ++ serial ++ [GROUP_SEPARATOR] ++
        ['1', '7'] ++ exp ++ ['1', '0'] ++ lot).filter (fun c => c ≠ GROUP_SEPARATOR) = s := by
    have hsplit : ['0', '1'] ++ g ++ ['2', '1'] ++ serial ++ [GROUP_SEPARATOR] ++
        ['1', '7'] ++ exp ++ ['1', '0'] ++ lot =
        (['0', '1'] ++ g ++ ['2', '1'] ++ serial) ++ [GROUP_SEPARATOR] ++
          (['1', '7'] ++ exp ++ ['1', '0'] ++ lot) := by
      simp [List.append_assoc]
    rw [hsplit, filter_gs_middle _ _ hA hB, hs]
    simp [List.append_assoc]
  have hai0 : pySlice s 0 (0 + 2) = ['0', '1'] :=
    pySlice_exact [] ['0', '1'] (g ++ ['2', '1'] ++ serial ++ ['1', '7'] ++ exp ++ ['1', '0'] ++ lot)
      s 0 (0 + 2) (by rw [hs]; try simp [List.append_assoc]) rfl rfl
  have hgt : pySlice s (0 + 2) (0 + 16) = g :=
    pySlice_exact ['0', '1'] g (['2', '1'] ++ serial ++ ['1', '7'] ++ exp ++ ['1', '0'] ++ lot)
      s (0 + 2) (0 + 16) (by rw [hs]; try simp [List.append_assoc]) rfl (by omega)
  have hai16 : pySlice s 16 (16 + 2) = ['2', '1'] :=
    pySlice_exact (['0', '1'] ++ g) ['2', '1'] (serial ++ ['1', '7'] ++ exp ++ ['1', '0'] ++ lot)
      s 16 (16 + 2) (by rw [hs]; try simp [List.append_assoc]) (by simp [hg14]) (by simp)
  have h17 : pySlice s p (p + 2) = ['1', '7'] :=
    pySlice_exact (['0', '1'] ++ g ++ ['2', '1'] ++ serial) ['1', '7'] (exp ++ ['1', '0'] ++ lot)
      s p (p + 2) (by rw [hs]; try simp [List.append_assoc])
      (by simp [List.length_append, hg14]; try omega) (by simp)
  have hexp : pySlice s (p + 2) (p + 8) = exp :=
    pySlice_exact (['0', '1'] ++ g ++ ['2', '1'] ++ serial ++ ['1', '7']) exp (['1', '0'] ++ lot)
      s (p + 2) (p + 8) (by rw [hs]; try simp [List.append_assoc])
      (by simp [List.length_append, hg14]; try omega) (by omega)
  have h10at : pySlice s (p + 8) (p + 8 + 2) = ['1', '0'] :=
    pySlice_exact (['0', '1'] ++ g ++ ['2', '1'] ++ serial ++ ['1', '7'] ++ exp) ['1', '0'] lot
      s (p + 8) (p + 8 + 2) (by rw [hs]; try simp [List.append_assoc])
      (by simp [List.length_append, hg14, hE6]; try omega) (by simp)
  have hlot : s.drop (p + 8 + 2) = lot :=
    drop_exact (['0', '1'] ++ g ++ ['2', '1'] ++ serial ++ ['1', '7'] ++ exp ++ ['1', '0']) lot
      s (p + 8 + 2) (by rw [hs]; try simp [List.append_assoc])
      (by simp [List.length_append, hg14, hE6]; try omega)
  have hexpne : exp ≠ [] := by
    intro h0
    rw [h0] at hE6
    exact absurd hE6 (by simp)
  have hcorrP : corroborated17At s p = true := by
    unfold corroborated17At
    rw [if_pos ⟨by omega, h17⟩]
    simp only []
    rw [hexp]
    rw [if_pos ⟨pyStrIsDigit_of_digits exp hexpne hed, hE6⟩]
    rw [if_neg (by omega : ¬ p + 8 ≥ s.length)]
    rw [if_pos ⟨by omega, h10at⟩]
  have hend : findSerialEnd s (16 + 2) = p :=
    findSerialEnd_eq_first s p (16 + 2) p (by omega) (by omega) hcorrP
      (fun k hk1 hk2 => hben k (by omega) (by omega))
  have hserialSlice : pySlice s (16 + 2) p = serial :=
    pySlice_exact (['0', '1'] ++ g ++ ['2', '1']) serial (['1', '7'] ++ exp ++ ['1', '0'] ++ lot)
      s (16 + 2) p (by rw [hs]; try simp [List.append_assoc]) (by simp [hg14]) (by omega)
  have hstep1 : loopBody s 0 emptyResult =
      LoopOut.cont (0 + 16) { emptyResult with gtin := g } := by
    have h1 := loopBody_gtin s 0 emptyResult hai0 rfl (by omega)
    rw [hgt] at h1
    exact h1
  have hstep2 : loopBody s 16 { emptyResult with gtin := g } =
      LoopOut.cont p { emptyResult with gtin := g, serial_number := serial } := by
    have h2 := loopBody_serial s 16 { emptyResult with gtin := g } hai16 hgne rfl (by omega)
    rw [hend, hserialSlice] at h2
    exact h2
  have hstep3 : loopBody s p { emptyResult with gtin := g, serial_number := serial } =
      LoopOut.cont (p + 8)
        { emptyResult with
          gtin := g, serial_number := serial, expiration_date := expWindow exp } := by
    have h3 := loopBody_exp s p { emptyResult with gtin := g, serial_number := serial }
      h17 hgne rfl (by omega) (by rw [hexp]; exact hed)
    rw [hexp] at h3
    exact h3
  have hstep4 : loopBody s (p + 8)
      { emptyResult with
        gtin := g, serial_number := serial, expiration_date := expWindow exp } =
      LoopOut.halt
        { emptyResult with
          gtin := g, serial_number := serial, expiration_date := expWindow exp,
          lot_number := lot } := by
    have h4 := loopBody_lot s (p + 8)
      { emptyResult with
        gtin := g, serial_number := serial, expiration_date := expWindow exp }
      h10at hgne rfl (by omega)
    rw [hlot] at h4
    exact h4
  have hparse : parse_gs1_datamatrix
      (['0', '1'] ++ g ++ ['2', '1'] ++ serial ++ [GROUP_SEPARATOR] ++
        ['1', '7'] ++ exp ++ ['1', '0'] ++ lot) =
      Except.map addNdc (scanLoopAux s s.length 0 emptyResult) := by
    unfold parse_gs1_datamatrix
    simp only []
    rw [hclean]
  rw [hparse,
    scanLoopAux_cont s s.length 0 emptyResult (0 + 16) _ (by omega) (by omega) hstep1,
    scanLoopAux_cont s s.length (0 + 16) _ p _ (by omega) (by omega) hstep2,
    scanLoopAux_cont s s.length p _ (p + 8) _ (by omega) (by omega) hstep3,
    scanLoopAux_halt s s.length (p + 8) _ _ (by omega) (by omega) hstep4]
  simp only [Except.map]
  rw [addNdc_of_ndcOf _ rfl]

theorem spec_C1_witness :
    parse_gs1_datamatrix
        (['0', '1'] ++ "00301439570103".toList ++ ['2', '1'] ++ "10012888457960".toList ++
          [GROUP_SEPARATOR] ++ ['1', '7'] ++ "260930".toList ++ ['1', '0'] ++
          "2405224".toList) =
      Except.ok ⟨"00301439570103".toList, "10012888457960".toList, "2405224".toList,
        "2026-09-30".toList, "01439-5701".toList⟩ :=
  spec_C1 "00301439570103".toList "10012888457960".toList "260930".toList "2405224".toList
    (by rfl) (by rfl) (by decide) (by rfl) (by rfl) (by rfl) (by decide) (by decide)
    (by rfl) (by decide)

/-- C1 counterexample: the canonical input with serial `17120101`
(which contains `"17"` followed by the plausible date digits `120101`)
is not recovered: the serial comes back empty and the expiration is read
from inside the intended serial as `2012-01-01`, not from the real
expiration field. -/
theorem spec_C1_counterexample :
    parse_gs1_datamatrix
        (['0', '1'] ++ "00301439570103".toList ++ ['2', '1'] ++ "17120101".toList ++
          [GROUP_SEPARATOR] ++ ['1', '7'] ++ "260930".toList ++ ['1', '0'] ++
          "2405224".toList) =
      Except.ok ⟨"00301439570103".toList, [], "2405224".toList,
        "2012-01-01".toList, "01439-5701".toList⟩ ∧
    ([] : List Char) ≠ "17120101".toList ∧
    ("2012-01-01".toList : List Char) ≠ "2026-09-30".toList :=
  ⟨by rfl, by decide, by decide⟩

/-- C6 (amended): scanner-noise resilience.  First conjunct: for inputs
that are canonical except that the separator before the expiration field
is replaced by the literal digits `029` (so the input contains
`02917260930`), the expiration is still recovered as `2026-09-30` —
provided no position in the serial-plus-`029` region passes the
corroborated-`17` boundary test; the `029` digits end up appended to the
returned serial (no normalization takes place — recovery happens because
the boundary search finds the real `17`).  Second conjunct: a boundary
returned by the search that is not the end of the input always carries
the AI digits `17` there, so a serial is never split at the digits `029`
themselves.  (The counterexample shows the claim's unconditional first
part fails for serials containing their own corroborated `17`.) -/
theorem spec_C6 :
    (∀ (g serial lot : List Char), g.length = 14 → g.all Char.isDigit = true →
      serial ≠ [] → serial.all Char.isDigit = true → lot ≠ [] →
      lot.all Char.isDigit = true →
      (∀ k, k < 21 + serial.length → 18 ≤ k →
        corroborated17At
          (['0', '1'] ++ g ++ ['2', '1'] ++ serial ++ ['0', '2', '9'] ++
            ['1', '7'] ++ ['2', '6', '0', '9', '3', '0'] ++ ['1', '0'] ++ lot)
          k = false) →
      parse_gs1_datamatrix
          (['0', '1'] ++ g ++ ['2', '1'] ++ serial ++ ['0', '2', '9'] ++
            ['1', '7'] ++ ['2', '6', '0', '9', '3', '0'] ++ ['1', '0'] ++ lot) =
        Except.ok ⟨g, serial ++ ['0', '2', '9'], lot, "2026-09-30".toList, ndcOf g⟩) ∧
    (∀ (s : List Char) (j0 : Nat), findSerialEnd s j0 ≠ s.length →
      pySlice s (findSerialEnd s j0) (findSerialEnd s j0 + 2) = ['1', '7']) := by
  constructor
  · intro g serial lot hg14 hgd _hsne hsd _hlne hld hben
    set s := ['0', '1'] ++ g ++ ['2', '1'] ++ serial ++ ['0', '2', '9'] ++
      ['1', '7'] ++ ['2', '6', '0', '9', '3', '0'] ++ ['1', '0'] ++ lot with hs
    set p := 21 + serial.length with hp
    have hL : s.length = 31 + (serial.length + lot.length) := by
      rw [hs]
      simp [List.length_append, hg14]
      try omega
    have hgne : g ≠ [] := by
      intro h0
      rw [h0] at hg14
      exact absurd hg14 (by simp)
    have hall : s.all Char.isDigit = true := by
      rw [hs]
      simp [List.all_append, hgd, hsd, hld]
    have hclean : s.filter (fun c => c ≠ GROUP_SEPARATOR) = s := filter_gs_of_digits s hall
    have hai0 : pySlice s 0 (0 + 2) = ['0', '1'] :=
      pySlice_exact [] ['0', '1']
        (g ++ ['2', '1'] ++ serial ++ ['0', '2', '9'] ++ ['1', '7'] ++
          ['2', '6', '0', '9', '3', '0'] ++ ['1', '0'] ++ lot)
        s 0 (0 + 2) (by rw [hs]; try simp [List.append_assoc]) rfl rfl
    have hgt : pySlice s (0 + 2) (0 + 16) = g :=
      pySlice_exact ['0', '1'] g
        (['2', '1'] ++ serial ++ ['0', '2', '9'] ++ ['1', '7'] ++
          ['2', '6', '0', '9', '3', '0'] ++ ['1', '0'] ++ lot)
        s (0 + 2) (0 + 16) (by rw [hs]; try simp [List.append_assoc]) rfl (by omega)
    have hai16 : pySlice s 16 (16 + 2) = ['2', '1'] :=
      pySlice_exact (['0', '1'] ++ g) ['2', '1']
        (serial ++ ['0', '2', '9'] ++ ['1', '7'] ++
          ['2', '6', '0', '9', '3', '0'] ++ ['1', '0'] ++ lot)
        s 16 (16 + 2) (by rw [hs]; try simp [List.append_assoc]) (by simp [hg14]) (by simp)
    have h17 : pySlice s p (p + 2) = ['1', '7'] :=
      pySlice_exact (['0', '1'] ++ g ++ ['2', '1'] ++ serial ++ ['0', '2', '9']) ['1', '7']
        (['2', '6', '0', '9', '3', '0'] ++ ['1', '0'] ++ lot)
        s p (p + 2) (by rw [hs]; try simp [List.append_assoc])
        (by simp [List.length_append, hg14]; try omega) (by simp)
    have hexp : pySlice s (p + 2) (p + 8) = ['2', '6', '0', '9', '3', '0'] :=
      pySlice_exact (['0', '1'] ++ g ++ ['2', '1'] ++ serial ++ ['0', '2', '9'] ++ ['1', '7'])
        ['2', '6', '0', '9', '3', '0'] (['1', '0'] ++ lot)
        s (p + 2) (p + 8) (by rw [hs]; try simp [List.append_assoc])
        (by simp [List.length_append, hg14]; try omega) (by simp)
    have h10at : pySlice s (p + 8) (p + 8 + 2) = ['1', '0'] :=
      pySlice_exact
        (['0', '1'] ++ g ++ ['2', '1'] ++ serial ++ ['0', '2', '9'] ++ ['1', '7'] ++
          ['2', '6', '0', '9', '3', '0'])
        ['1', '0'] lot s (p + 8) (p + 8 + 2) (by rw [hs]; try simp [List.append_assoc])
        (by simp [List.length_append, hg14]; try omega) (by simp)
    have hlot : s.drop (p + 8 + 2) = lot :=
      drop_exact
        (['0', '1'] ++ g ++ ['2', '1'] ++ serial ++ ['0', '2', '9'] ++ ['1', '7'] ++
          ['2', '6', '0', '9', '3', '0'] ++ ['1', '0'])
        lot s (p + 8 + 2) (by rw [hs]; try simp [List.append_assoc])
        (by simp [List.length_append, hg14]; try omega)
    have hcorrP : corroborated17At s p = true := by
      unfold corroborated17At
      rw [if_pos ⟨by omega, h17⟩]
      simp only []
      rw [hexp]
      rw [if_pos ⟨by decide, by decide⟩]
      rw [if_neg (by omega : ¬ p + 8 ≥ s.length)]
      rw [if_pos ⟨by omega, h10at⟩]
    have hend : findSerialEnd s (16 + 2) = p :=
      findSerialEnd_eq_first s p (16 + 2) p (by omega) (by omega) hcorrP
        (fun k hk1 hk2 => hben k (by omega) (by omega))
    have hserialSlice : pySlice s (16 + 2) p = serial ++ ['0', '2', '9'] :=
      pySlice_exact (['0', '1'] ++ g ++ ['2', '1']) (serial ++ ['0', '2', '9'])
        (['1', '7'] ++ ['2', '6', '0', '9', '3', '0'] ++ ['1', '0'] ++ lot)
        s (16 + 2) p (by rw [hs]; try simp [List.append_assoc]) (by simp [hg14])
        (by simp [List.length_append]; try omega)
    have hstep1 : loopBody s 0 emptyResult =
        LoopOut.cont (0 + 16) { emptyResult with gtin := g } := by
      have h1 := loopBody_gtin s 0 emptyResult hai0 rfl (by omega)
      rw [hgt] at h1
      exact h1
    have hstep2 : loopBody s 16 { emptyResult with gtin := g } =
        LoopOut.cont p
          { emptyResult with gtin := g, serial_number := serial ++ ['0', '2', '9'] } := by
      have h2 := loopBody_serial s 16 { emptyResult with gtin := g } hai16 hgne rfl (by omega)
      rw [hend, hserialSlice] at h2
      exact h2
    have hstep3 : loopBody s p
        { emptyResult with gtin := g, serial_number := serial ++ ['0', '2', '9'] } =
        LoopOut.cont (p + 8)
          { emptyResult with
            gtin := g, serial_number := serial ++ ['0', '2', '9'],
            expiration_date := expWindow ['2', '6', '0', '9', '3', '0'] } := by
      have h3 := loopBody_exp s p
        { emptyResult with gtin := g, serial_number := serial ++ ['0', '2', '9'] }
        h17 hgne rfl (by omega) (by rw [hexp]; decide)
      rw [hexp] at h3
      exact h3
    have hstep4 : loopBody s (p + 8)
        { emptyResult with
          gtin := g, serial_number := serial ++ ['0', '2', '9'],
          expiration_date := expWindow ['2', '6', '0', '9', '3', '0'] } =
        LoopOut.halt
          { emptyResult with
            gtin := g, serial_number := serial ++ ['0', '2', '9'],
            expiration_date := expWindow ['2', '6', '0', '9', '3', '0'],
            lot_number := lot } := by
      have h4 := loopBody_lot s (p + 8)
        { emptyResult with
          gtin := g, serial_number := serial ++ ['0', '2', '9'],
          expiration_date := expWindow ['2', '6', '0', '9', '3', '0'] }
        h10at hgne rfl (by omega)
      rw [hlot] at h4
      exact h4
    have hparse : parse_gs1_datamatrix s =
        Except.map addNdc (scanLoopAux s s.length 0 emptyResult) := by
      unfold parse_gs1_datamatrix
      simp only []
      rw [hclean]
    rw [hparse,
      scanLoopAux_cont s s.length 0 emptyResult (0 + 16) _ (by omega) (by omega) hstep1,
      scanLoopAux_cont s s.length (0 + 16) _ p _ (by omega) (by omega) hstep2,
      scanLoopAux_cont s s.length p _ (p + 8) _ (by omega) (by omega) hstep3,
      scanLoopAux_halt s s.length (p + 8) _ _ (by omega) (by omega) hstep4]
    simp only [Except.map]
    rw [addNdc_of_ndcOf _ rfl]
    rfl
  · intro s j0 h
    exact corr_slice17 s _ (findSerialEnd_boundary s s.length j0 (by omega) h)

theorem spec_C6_witness :
    parse_gs1_datamatrix
        (['0', '1'] ++ "00301439570103".toList ++ ['2', '1'] ++ "1001288845796".toList ++
          ['0', '2', '9'] ++ ['1', '7'] ++ ['2', '6', '0', '9', '3', '0'] ++ ['1', '0'] ++
          "2405224".toList) =
      Except.ok ⟨"00301439570103".toList, "1001288845796029".toList, "2405224".toList,
        "2026-09-30".toList, "01439-5701".toList⟩ :=
  spec_C6.1 "00301439570103".toList "1001288845796".toList "2405224".toList
    (by rfl) (by rfl) (by decide) (by rfl) (by decide) (by rfl) (by decide)

/-- C6 counterexample: with serial `17120101` the input containing the
noise sequence `02917260930` does not recover `2026-09-30`: the serial's
own corroborated `17` wins, so the expiration comes back `2012-01-01`. -/
theorem spec_C6_counterexample :
    parse_gs1_datamatrix
        ("0100301439570103" ++ "21" ++ "17120101" ++ "029" ++ "17260930" ++ "10" ++
          "2405224").toList =
      Except.ok ⟨"00301439570103".toList, [], "2405224".toList,
        "2012-01-01".toList, "01439-5701".toList⟩ ∧
    ("2012-01-01".toList : List Char) ≠ "2026-09-30".toList :=
  ⟨by rfl, by decide⟩
